import Mathlib

/-!
Shallow embedding of the myduit ledger and recurring-schedule core:
`src/actions/transactions.ts`, `src/actions/recurring.ts`,
`src/lib/validation.ts` (zod `transactionSchema`), and the auth helpers of
`src/lib/prisma-adapter.ts`.  JavaScript numbers are modelled as exact
rationals extended with the IEEE special values NaN and ±Infinity (rounding
is not modelled); the Prisma store is modelled as in-memory lists with
`$transaction` blocks giving all-or-nothing state updates.
-/

/-- A JavaScript number: a finite value (modelled exactly as a rational),
NaN, or a signed infinity. -/
inductive JsNum where
  | num (v : ℚ)
  | nan
  | posInf
  | negInf
deriving DecidableEq, Repr

namespace JsNum

/-- JavaScript `+` on the modelled numbers (finite arithmetic exact). -/
def add : JsNum → JsNum → JsNum
  | nan, _ => nan
  | _, nan => nan
  | posInf, negInf => nan
  | negInf, posInf => nan
  | posInf, _ => posInf
  | _, posInf => posInf
  | negInf, _ => negInf
  | _, negInf => negInf
  | num a, num b => num (a + b)

/-- JavaScript unary minus. -/
def neg : JsNum → JsNum
  | num a => num (-a)
  | nan => nan
  | posInf => negInf
  | negInf => posInf

end JsNum

/-- The JavaScript constant `Number.MAX_SAFE_INTEGER`, 2 ^ 53 - 1. -/
def MAX_SAFE_INTEGER : ℚ := 9007199254740991

/-- Prisma enum `TransactionType`. -/
inductive TransactionType where
  | INCOME
  | EXPENSE
  | TRANSFER
deriving DecidableEq, Repr

/-- Prisma enum `Frequency`. -/
inductive Frequency where
  | DAILY
  | WEEKLY
  | MONTHLY
  | YEARLY
deriving DecidableEq, Repr

/-- A calendar date (the `Date` values flowing through the scheduler are
used at day granularity). -/
structure Date where
  year : Int
  month : Nat
  day : Nat
deriving DecidableEq, Repr

namespace Date

/-- Gregorian leap-year rule. -/
def isLeapYear (y : Int) : Bool :=
  (y % 4 == 0 && y % 100 != 0) || (y % 400 == 0)

/-- Number of days in a month of a given year. -/
def daysInMonth (y : Int) (m : Nat) : Nat :=
  if m == 2 then (if isLeapYear y then 29 else 28)
  else if m == 4 || m == 6 || m == 9 || m == 11 then 30
  else 31

/-- The day after `d` in the civil calendar. -/
def nextDay (d : Date) : Date :=
  if d.day < daysInMonth d.year d.month then ⟨d.year, d.month, d.day + 1⟩
  else if d.month < 12 then ⟨d.year, d.month + 1, 1⟩
  else ⟨d.year + 1, 1, 1⟩

/-- Strict timeline order on dates (lexicographic year, month, day). -/
def ltb (a b : Date) : Bool :=
  a.year < b.year ||
    (a.year == b.year &&
      (a.month < b.month || (a.month == b.month && a.day < b.day)))

/-- Non-strict timeline order, matching Prisma `lte` on timestamps. -/
def leb (a b : Date) : Bool := !(ltb b a)

end Date

/-- date-fns `addDays(date, n)` for a non-negative day count. -/
def addDays (d : Date) : Nat → Date
  | 0 => d
  | n + 1 => addDays d.nextDay n

/-- date-fns `addWeeks(date, 1)`: seven days later. -/
def addWeeks (d : Date) : Date := addDays d 7

/-- date-fns `addMonths(date, 1)`: the same day of the next calendar month,
with the day-of-month clamped to the target month's last day
(`if (dayOfMonth >= daysInMonth) return endOfDesiredMonth`). -/
def addMonths (d : Date) : Date :=
  let y : Int := if d.month == 12 then d.year + 1 else d.year
  let m : Nat := if d.month == 12 then 1 else d.month + 1
  ⟨y, m, min d.day (Date.daysInMonth y m)⟩

/-- date-fns `addYears(date, 1)` (implemented upstream as
`addMonths(date, 12)`): the same month of the next year, with the
day-of-month clamped (Feb 29 of a leap year becomes Feb 28). -/
def addYears (d : Date) : Date :=
  ⟨d.year + 1, d.month, min d.day (Date.daysInMonth (d.year + 1) d.month)⟩

/-- date-fns `isAfter(a, b)`: `a` is strictly later than `b`. -/
def isAfter (a b : Date) : Bool := Date.ltb b a

/-- Persisted `Account` row (the fields the ledger engine touches). -/
structure Account where
  id : String
  user_id : String
  balance : JsNum
deriving DecidableEq, Repr

/-- Persisted `Transaction` row. -/
structure Transaction where
  id : String
  user_id : String
  account_id : Option String
  amount : JsNum
  type : TransactionType
  category : String
  date : Date
  description : Option String
deriving DecidableEq, Repr

/-- Persisted `RecurringTransaction` row. -/
structure RecurringTransaction where
  id : String
  user_id : String
  amount : JsNum
  type : TransactionType
  category : String
  description : Option String
  frequency : Frequency
  start_date : Date
  end_date : Option Date
  next_run_date : Date
  last_run_date : Option Date
  account_id : Option String
  is_active : Bool
deriving DecidableEq, Repr

/-- The relational store. -/
structure DB where
  accounts : List Account
  transactions : List Transaction
  recurring : List RecurringTransaction
deriving DecidableEq, Repr

/-- Result channel of a server action: a successful return value, a
structured error-message result value, or a raised exception. -/
inductive Outcome (α : Type) where
  | ok (a : α)
  | errValue (msg : String)
  | thrown (msg : String)
deriving DecidableEq, Repr

/-- The constant `ERROR_MESSAGES.SESSION_INVALID` from `src/lib/constants.ts`. -/
def SESSION_INVALID : String := "Sesi tidak valid. Silakan login kembali."

/-- Input object of `addTransaction`. -/
structure TxInput where
  amount : JsNum
  type : TransactionType
  category : String
  date : Date
  description : Option String
  account_id : Option String
deriving DecidableEq, Repr

/-- The `amount` checks of zod `transactionSchema` (`z.number()` rejects
NaN; `.min(0)`, `.max(Number.MAX_SAFE_INTEGER)`, `.finite()`), returning
the first failing check's message. -/
def validateAmount : JsNum → Option String
  | JsNum.nan => some "Amount must be a valid number."
  | JsNum.posInf => some "Amount exceeds maximum allowed value."
  | JsNum.negInf => some "Amount cannot be negative."
  | JsNum.num q =>
    if q < 0 then some "Amount cannot be negative."
    else if MAX_SAFE_INTEGER < q then some "Amount exceeds maximum allowed value."
    else none

/-- The `category` checks of `transactionSchema` (`.min(1)`, `.max(100)`,
trimmed non-empty; a string trims to empty exactly when every character is
whitespace). -/
def validateCategory (c : String) : Option String :=
  if c.length < 1 then some "Category cannot be empty."
  else if 100 < c.length then some "Category is too long."
  else if c.data.all Char.isWhitespace then some "Category cannot be empty."
  else none

/-- The `account_id` check of `transactionSchema` (`.max(255)`, optional). -/
def validateAccountId : Option String → Option String
  | none => none
  | some s => if 255 < s.length then some "Account ID is too long." else none

/-- Embeds `transactionSchema.safeParse`: the first field error in schema order,
or `none` when the input validates. -/
def validateTransaction (d : TxInput) : Option String :=
  match validateAmount d.amount with
  | some m => some m
  | none =>
    match validateCategory d.category with
    | some m => some m
    | none => validateAccountId d.account_id

/-- Embeds `const accountId = account_id === "" ? null : account_id`. -/
def normalizeAccountId : Option String → Option String
  | some "" => none
  | x => x

/-- Embeds `description: description || null` (an empty string is stored as null). -/
def normalizeDescription : Option String → Option String
  | some "" => none
  | x => x

/-- Embeds `tx.account.findFirst` scoped by account id and owner. -/
def findAccount (db : DB) (accountId userId : String) : Option Account :=
  db.accounts.find? (fun a => a.id == accountId && a.user_id == userId)

/-- Embeds `tx.account.update` with an atomic balance increment of `delta`
on the account row with the given id. -/
def updateBalance (accounts : List Account) (accountId : String) (delta : JsNum) :
    List Account :=
  accounts.map (fun a =>
    if a.id == accountId then { a with balance := a.balance.add delta } else a)

/-- Embeds `addTransaction` from `src/actions/transactions.ts`.  The session is
`none` when unauthenticated (`requireAuth` throws `"Unauthorized"`);
`newId` is the store-generated id of the created row.  The `$transaction`
block is all-or-nothing: the inner throw on a missing/not-owned account
rolls back the created row and is caught, so a structured error is
returned and the store is unchanged. -/
def addTransaction (session : Option String) (newId : String) (d : TxInput)
    (db : DB) : Outcome Transaction × DB :=
  match session with
  | none => (Outcome.thrown "Unauthorized", db)
  | some userId =>
    match validateTransaction d with
    | some msg => (Outcome.errValue msg, db)
    | none =>
      let accountId := normalizeAccountId d.account_id
      let t : Transaction :=
        ⟨newId, userId, accountId, d.amount, d.type, d.category, d.date,
          normalizeDescription d.description⟩
      match accountId with
      | some aid =>
        if d.type ≠ TransactionType.TRANSFER then
          match findAccount db aid userId with
          | none => (Outcome.errValue "Akun tidak ditemukan.", db)
          | some _ =>
            let balanceChange :=
              if d.type = TransactionType.INCOME then d.amount else d.amount.neg
            (Outcome.ok t,
              ⟨updateBalance db.accounts aid balanceChange,
                db.transactions ++ [t], db.recurring⟩)
        else (Outcome.ok t, ⟨db.accounts, db.transactions ++ [t], db.recurring⟩)
      | none => (Outcome.ok t, ⟨db.accounts, db.transactions ++ [t], db.recurring⟩)

/-- Embeds `deleteTransaction` from `src/actions/transactions.ts`.  The catch
block rethrows `new Error("Gagal menghapus transaksi.")`, so every failure
after authentication surfaces as a raised exception; `storeFails` models a
storage-layer failure of the atomic unit. -/
def deleteTransaction (session : Option String) (storeFails : Bool) (id : String)
    (db : DB) : Outcome Unit × DB :=
  match session with
  | none => (Outcome.thrown "Unauthorized", db)
  | some userId =>
    if storeFails then (Outcome.thrown "Gagal menghapus transaksi.", db)
    else
      match db.transactions.find? (fun t => t.id == id) with
      | none => (Outcome.thrown "Gagal menghapus transaksi.", db)
      | some t =>
        if t.user_id ≠ userId then (Outcome.thrown "Gagal menghapus transaksi.", db)
        else
          let accounts :=
            match t.account_id with
            | some aid =>
              if t.type ≠ TransactionType.TRANSFER then
                updateBalance db.accounts aid
                  (if t.type = TransactionType.INCOME then t.amount.neg else t.amount)
              else db.accounts
            | none => db.accounts
          (Outcome.ok (),
            ⟨accounts, db.transactions.filter (fun u => u.id ≠ id), db.recurring⟩)

/-- Partial update object of `updateTransaction` (its parameter type has no
`account_id` field). -/
structure TxUpdate where
  amount : Option JsNum
  type : Option TransactionType
  category : Option String
  date : Option Date
  description : Option (Option String)
deriving DecidableEq, Repr

/-- Embeds `transactionSchema.partial().safeParse`: each provided field is checked
by its field schema. -/
def validateTxUpdate (u : TxUpdate) : Option String :=
  match u.amount with
  | some a =>
    match validateAmount a with
    | some m => some m
    | none =>
      match u.category with
      | some c => validateCategory c
      | none => none
  | none =>
    match u.category with
    | some c => validateCategory c
    | none => none

/-- Applying the provided fields of a partial update to a row. -/
def applyUpdate (t : Transaction) (u : TxUpdate) : Transaction :=
  { t with
    amount := u.amount.getD t.amount
    type := u.type.getD t.type
    category := u.category.getD t.category
    date := u.date.getD t.date
    description := u.description.getD t.description }

/-- Embeds `updateTransaction` from `src/actions/transactions.ts`:
the row update is scoped by id and owner and mutates only
the transaction row; a missing row makes Prisma throw, caught into a
structured error. -/
def updateTransaction (session : Option String) (id : String) (u : TxUpdate)
    (db : DB) : Outcome Transaction × DB :=
  match session with
  | none => (Outcome.thrown "Unauthorized", db)
  | some userId =>
    match validateTxUpdate u with
    | some msg => (Outcome.errValue msg, db)
    | none =>
      match db.transactions.find? (fun t => t.id == id && t.user_id == userId) with
      | none => (Outcome.errValue "Gagal memperbarui transaksi.", db)
      | some t =>
        (Outcome.ok (applyUpdate t u),
          ⟨db.accounts,
            db.transactions.map (fun s =>
              if s.id == id && s.user_id == userId then applyUpdate s u else s),
            db.recurring⟩)


/-- Input object of `addRecurringTransaction`. -/
structure RecurringInput where
  amount : JsNum
  type : TransactionType
  category : String
  description : Option String
  frequency : Frequency
  start_date : Date
  end_date : Option Date
  account_id : Option String
deriving DecidableEq, Repr

/-- The recurring row persisted by `addRecurringTransaction`: the given
fields unchanged, `next_run_date = start_date`, `is_active = true`. -/
def mkRecurring (newId userId : String) (d : RecurringInput) : RecurringTransaction :=
  ⟨newId, userId, d.amount, d.type, d.category, d.description, d.frequency,
    d.start_date, d.end_date, d.start_date, none, d.account_id, true⟩

/-- Embeds `addRecurringTransaction` from `src/actions/recurring.ts`.  It
uses `getAuthUserId` (structured invalid-session error on a missing
session), applies no validation to the payload, and persists it as given;
`storeFails` models a storage-layer failure of the create, caught into a
structured error. -/
def addRecurringTransaction (session : Option String) (storeFails : Bool)
    (newId : String) (d : RecurringInput) (db : DB) :
    Outcome RecurringTransaction × DB :=
  match session with
  | none => (Outcome.errValue SESSION_INVALID, db)
  | some userId =>
    if storeFails then (Outcome.errValue "Gagal membuat transaksi berulang.", db)
    else
      let r := mkRecurring newId userId d
      (Outcome.ok r, { db with recurring := db.recurring ++ [r] })

/-- The ledger row materialized from a due recurring definition
(`tx.transaction.create` inside `processRecurringTransactions`): dated at
the definition's `next_run_date`, with no balance adjustment. -/
def materializeTx (newId : String) (rt : RecurringTransaction) : Transaction :=
  ⟨newId, rt.user_id, rt.account_id, rt.amount, rt.type, rt.category,
    rt.next_run_date, rt.description⟩

/-- The schedule-state update of one processing step: the next run date is
advanced by one frequency unit via the date-fns `switch`, the definition is
deactivated when an `end_date` exists and the advanced date is strictly
after it, and `last_run_date` records the materialized occurrence. -/
def advanceRT (rt : RecurringTransaction) : RecurringTransaction :=
  let nextDate :=
    match rt.frequency with
    | Frequency.DAILY => addDays rt.next_run_date 1
    | Frequency.WEEKLY => addWeeks rt.next_run_date
    | Frequency.MONTHLY => addMonths rt.next_run_date
    | Frequency.YEARLY => addYears rt.next_run_date
  let isActive :=
    match rt.end_date with
    | some ed => !(isAfter nextDate ed)
    | none => true
  { rt with
    last_run_date := some rt.next_run_date
    next_run_date := nextDate
    is_active := isActive }

/-- One iteration of the processing loop: the atomic unit that creates the
materialized transaction row and updates the schedule state together. -/
def processOne (newId : String) (rt : RecurringTransaction) (db : DB) : DB :=
  { db with
    transactions := db.transactions ++ [materializeTx newId rt]
    recurring := db.recurring.map (fun r => if r.id == rt.id then advanceRT rt else r) }

/-- The due scan of `processRecurringTransactions`: active definitions of
the caller whose `next_run_date` is not after `now`. -/
def dueList (userId : String) (now : Date) (db : DB) : List RecurringTransaction :=
  db.recurring.filter (fun rt =>
    rt.user_id == userId && rt.is_active && Date.leb rt.next_run_date now)

/-- The `for` loop of `processRecurringTransactions`.  `failing` models the
storage layer: `some msg` makes that definition's `$transaction` reject
with `msg`.  The loop body has no try/catch, so the first failure rolls
back only its own atomic unit and the error propagates out of the action:
earlier items stay committed, later items are never reached, and no count
is returned. -/
def processLoop (freshId : String → String) (failing : String → Option String) :
    List RecurringTransaction → DB → Nat → Outcome Nat × DB
  | [], db, count => (Outcome.ok count, db)
  | rt :: rest, db, count =>
    match failing rt.id with
    | some msg => (Outcome.thrown msg, db)
    | none => processLoop freshId failing rest (processOne (freshId rt.id) rt db) (count + 1)

/-- Embeds `processRecurringTransactions` from `src/actions/recurring.ts`.
`freshId` supplies the store-generated id of the transaction materialized
for a given recurring id. -/
def processRecurringTransactions (session : Option String) (now : Date)
    (freshId : String → String) (failing : String → Option String) (db : DB) :
    Outcome Nat × DB :=
  match session with
  | none => (Outcome.errValue SESSION_INVALID, db)
  | some userId => processLoop freshId failing (dueList userId now db) db 0


/-! ## Helper lemmas -/

/-- Adding a finite number and then its negation is the identity. -/
theorem JsNum.add_num_cancel (b : JsNum) (q : ℚ) :
    (b.add (JsNum.num q)).add (JsNum.num (-q)) = b := by
  cases b <;> simp [JsNum.add]

/-- Mapping a pointwise-identity function leaves a list unchanged. -/
theorem map_eq_self {α : Type} (f : α → α) (l : List α) (h : ∀ a, f a = a) :
    l.map f = l := by
  induction l with
  | nil => rfl
  | cons a as ih => simp [h a, ih]

/-- Incrementing a balance and then decrementing it by the same finite
amount restores every account row. -/
theorem updateBalance_cancel (accs : List Account) (aid : String) (q : ℚ) :
    updateBalance (updateBalance accs aid (JsNum.num q)) aid (JsNum.num (-q)) = accs := by
  unfold updateBalance
  rw [List.map_map]
  apply map_eq_self
  intro a
  by_cases h : (a.id == aid) = true
  · simp [Function.comp, h, JsNum.add_num_cancel]
  · simp [Function.comp, h]

/-- `find?` commutes with mapping a function that preserves the predicate. -/
theorem find?_map_comm {α : Type} (p : α → Bool) (f : α → α) (l : List α)
    (hf : ∀ a, p (f a) = p a) :
    (l.map f).find? p = (l.find? p).map f := by
  induction l with
  | nil => rfl
  | cons a as ih =>
    by_cases h : p a = true
    · simp [List.find?_cons, hf, h]
    · simp [List.find?_cons, hf, h, ih]

/-- After a balance increment on the found account, the owner-scoped lookup
returns the same row with the incremented balance. -/
theorem findAccount_updateBalance (accs : List Account) (aid u : String)
    (acc : Account) (d : JsNum)
    (h : accs.find? (fun a => a.id == aid && a.user_id == u) = some acc) :
    (updateBalance accs aid d).find? (fun a => a.id == aid && a.user_id == u) =
      some { acc with balance := acc.balance.add d } := by
  have hp : (acc.id == aid && acc.user_id == u) = true := by
    have := List.find?_some h
    simpa using this
  have hid : (acc.id == aid) = true := by
    cases hq : (acc.id == aid) <;> simp [hq] at hp ⊢
  have hcomm := find?_map_comm (fun a => a.id == aid && a.user_id == u)
      (fun a => if a.id == aid then { a with balance := a.balance.add d } else a) accs
      (by intro a; by_cases hq : (a.id == aid) = true <;> simp [hq])
  unfold updateBalance
  rw [hcomm, h]
  simp [Option.map, hid]

/-- `find?` over a list extended with a fresh element satisfying the
predicate, when no earlier element satisfies it. -/
theorem find?_append_fresh {α : Type} (p : α → Bool) (l : List α) (x : α)
    (h : ∀ a ∈ l, p a = false) (hx : p x = true) :
    (l ++ [x]).find? p = some x := by
  induction l with
  | nil => simp [List.find?_cons, hx]
  | cons a as ih =>
    have ha := h a (by simp)
    simp only [List.cons_append, List.find?_cons, ha]
    simpa [ha] using ih (fun b hb => h b (by simp [hb]))

/-- Filtering out a freshly appended element keeps exactly the old list
when every old element passes the filter. -/
theorem filter_append_fresh {α : Type} (p : α → Bool) (l : List α) (x : α)
    (h : ∀ a ∈ l, p a = true) (hx : p x = false) :
    (l ++ [x]).filter p = l := by
  induction l with
  | nil => simp [List.filter, hx]
  | cons a as ih =>
    have ha := h a (by simp)
    simp only [List.cons_append, List.filter, ha]
    simpa [ha] using ih (fun b hb => h b (by simp [hb]))

/-- The processing loop never touches any account row. -/
theorem processLoop_accounts (freshId : String → String)
    (failing : String → Option String) (l : List RecurringTransaction)
    (db : DB) (n : Nat) :
    (processLoop freshId failing l db n).2.accounts = db.accounts := by
  induction l generalizing db n with
  | nil => rfl
  | cons rt rest ih =>
    simp only [processLoop]
    cases failing rt.id with
    | some m => rfl
    | none => simpa using ih (processOne (freshId rt.id) rt db) (n + 1)

/-- When no due item fails, the loop commits every item in order and
returns the incremented count. -/
theorem processLoop_ok (freshId : String → String)
    (failing : String → Option String) (l : List RecurringTransaction)
    (db : DB) (n : Nat) (h : ∀ rt ∈ l, failing rt.id = none) :
    processLoop freshId failing l db n =
      (Outcome.ok (n + l.length),
        l.foldl (fun d rt => processOne (freshId rt.id) rt d) db) := by
  induction l generalizing db n with
  | nil => simp [processLoop]
  | cons rt rest ih =>
    have h0 := h rt (by simp)
    simp only [processLoop, h0]
    rw [ih (processOne (freshId rt.id) rt db) (n + 1) (fun r hr => h r (by simp [hr]))]
    simp only [List.foldl_cons, List.length_cons]
    have : n + 1 + rest.length = n + (rest.length + 1) := by omega
    rw [this]

/-- The first failing item aborts the loop: the prefix before it stays
committed, the failure propagates, and the remaining items are not
processed. -/
theorem processLoop_aborts (freshId : String → String)
    (failing : String → Option String) (pre : List RecurringTransaction)
    (rt : RecurringTransaction) (post : List RecurringTransaction)
    (m : String) (db : DB) (n : Nat)
    (hpre : ∀ r ∈ pre, failing r.id = none) (hrt : failing rt.id = some m) :
    processLoop freshId failing (pre ++ rt :: post) db n =
      (Outcome.thrown m,
        pre.foldl (fun d r => processOne (freshId r.id) r d) db) := by
  induction pre generalizing db n with
  | nil => simp [processLoop, hrt]
  | cons a as ih =>
    have h0 := hpre a (by simp)
    have step : processLoop freshId failing ((a :: as) ++ rt :: post) db n =
        processLoop freshId failing (as ++ rt :: post)
          (processOne (freshId a.id) a db) (n + 1) := by
      simp [processLoop, h0]
    rw [step, ih (processOne (freshId a.id) a db) (n + 1)
      (fun r hr => hpre r (by simp [hr]))]
    simp [List.foldl_cons]


/-! ## Claim theorems -/

/-- C1: a valid authenticated `addTransaction` of type INCOME or EXPENSE
naming an account owned by the caller succeeds, and the account's balance
moves by +amount for INCOME and -amount for EXPENSE; a TRANSFER call
leaves every account balance unchanged. -/
theorem addTransaction_balance_spec (u newId : String) (d : TxInput) (db : DB)
    (aid : String) (acc : Account) :
    (validateTransaction d = none →
      normalizeAccountId d.account_id = some aid →
      d.type ≠ TransactionType.TRANSFER →
      findAccount db aid u = some acc →
      (∃ t, (addTransaction (some u) newId d db).1 = Outcome.ok t) ∧
        findAccount (addTransaction (some u) newId d db).2 aid u =
          some { acc with balance := acc.balance.add (if d.type = TransactionType.INCOME then d.amount else d.amount.neg) }) ∧
    (d.type = TransactionType.TRANSFER →
      (addTransaction (some u) newId d db).2.accounts = db.accounts) := by
  constructor
  · intro hval haid hty hacc
    have hacc2 : List.find? (fun a => a.id == aid && a.user_id == u) db.accounts =
        some acc := by simpa [findAccount] using hacc
    constructor
    · exact ⟨⟨newId, u, some aid, d.amount, d.type, d.category, d.date,
        normalizeDescription d.description⟩,
        by simp [addTransaction, hval, haid, hacc, hty, findAccount, hacc2]⟩
    · have hk := findAccount_updateBalance db.accounts aid u acc
        (if d.type = TransactionType.INCOME then d.amount else d.amount.neg) hacc2
      simpa [addTransaction, hval, haid, hty, findAccount, hacc2] using hk
  · intro hT
    simp only [addTransaction]
    cases hval : validateTransaction d with
    | some m => rfl
    | none =>
      cases haid : normalizeAccountId d.account_id with
      | none => rfl
      | some aid2 => simp [hT]

/-- C7: every structured-error return of `addTransaction` leaves the store
unchanged; in particular a missing or not-owned account inside the atomic
unit returns the NotFound error with no transaction row and no balance
change retained. -/
theorem addTransaction_rollback_spec (u newId : String) (d : TxInput) (db : DB)
    (aid : String) :
    (∀ m, (addTransaction (some u) newId d db).1 = Outcome.errValue m →
      (addTransaction (some u) newId d db).2 = db) ∧
    (validateTransaction d = none →
      normalizeAccountId d.account_id = some aid →
      d.type ≠ TransactionType.TRANSFER →
      findAccount db aid u = none →
      addTransaction (some u) newId d db =
        (Outcome.errValue "Akun tidak ditemukan.", db)) := by
  constructor
  · intro m
    simp only [addTransaction]
    cases hval : validateTransaction d with
    | some msg => intro; rfl
    | none =>
      cases haid : normalizeAccountId d.account_id with
      | none => intro h; exact absurd h (by simp)
      | some aid2 =>
        by_cases hty : d.type = TransactionType.TRANSFER
        · intro h; exact absurd h (by simp [hty])
        · cases hacc : findAccount db aid2 u with
          | none => intro h; simp [hty, hacc]
          | some acc => intro h; exact absurd h (by simp [hty, hacc])
  · intro hval haid hty hacc
    simp [addTransaction, hval, haid, hty, hacc]

/-- C8: `updateTransaction` mutates only the transaction row; every account
row (in particular every balance) is left unchanged on every call. -/
theorem updateTransaction_accounts_frame (session : Option String) (id : String)
    (upd : TxUpdate) (db : DB) :
    (updateTransaction session id upd db).2.accounts = db.accounts := by
  cases session with
  | none => rfl
  | some u =>
    simp only [updateTransaction]
    cases hval : validateTxUpdate upd with
    | some m => rfl
    | none =>
      cases hf : db.transactions.find? (fun t => t.id == id && t.user_id == u) with
      | none => rfl
      | some t => rfl


/-- C2: deleting (by its owner) the transaction created by a successful
non-TRANSFER `addTransaction` reverses the balance effect using the
transaction's stored amount and type, so add-then-delete is the identity
on the store and in particular on every account balance. -/
theorem add_delete_roundtrip (u newId : String) (d : TxInput) (db : DB)
    (aid : String) (acc : Account)
    (hval : validateTransaction d = none)
    (haid : normalizeAccountId d.account_id = some aid)
    (hty : d.type ≠ TransactionType.TRANSFER)
    (hacc : findAccount db aid u = some acc)
    (hfresh : ∀ t ∈ db.transactions, t.id ≠ newId) :
    (deleteTransaction (some u) false newId (addTransaction (some u) newId d db).2).1 =
      Outcome.ok () ∧
    (deleteTransaction (some u) false newId (addTransaction (some u) newId d db).2).2 = db := by
  obtain ⟨q, hq⟩ : ∃ q, d.amount = JsNum.num q := by
    cases hA : d.amount with
    | num v => exact ⟨v, rfl⟩
    | nan => simp [validateTransaction, validateAmount, hA] at hval
    | posInf => simp [validateTransaction, validateAmount, hA] at hval
    | negInf => simp [validateTransaction, validateAmount, hA] at hval
  have hacc2 : List.find? (fun a => a.id == aid && a.user_id == u) db.accounts =
      some acc := by simpa [findAccount] using hacc
  have hdb1 : (addTransaction (some u) newId d db).2 =
      ⟨updateBalance db.accounts aid
          (if d.type = TransactionType.INCOME then d.amount else d.amount.neg),
        db.transactions ++ [⟨newId, u, some aid, d.amount, d.type, d.category, d.date, normalizeDescription d.description⟩], db.recurring⟩ := by
    simp [addTransaction, hval, haid, hty, findAccount, hacc2]
  have hfind : (db.transactions ++ [(⟨newId, u, some aid, d.amount, d.type, d.category, d.date, normalizeDescription d.description⟩ : Transaction)]).find?
      (fun t => t.id == newId) = some ⟨newId, u, some aid, d.amount, d.type, d.category, d.date, normalizeDescription d.description⟩ :=
    find?_append_fresh _ _ _ (fun t ht => by simpa using hfresh t ht) (by simp)
  have hcancel : updateBalance (updateBalance db.accounts aid
        (if d.type = TransactionType.INCOME then d.amount else d.amount.neg)) aid
        (if d.type = TransactionType.INCOME then d.amount.neg else d.amount) =
      db.accounts := by
    by_cases hI : d.type = TransactionType.INCOME
    · simpa [hI, hq, JsNum.neg] using updateBalance_cancel db.accounts aid q
    · have h2 := updateBalance_cancel db.accounts aid (-q)
      simpa [hI, hq, JsNum.neg] using h2
  rw [hdb1]
  constructor
  · simp [deleteTransaction, hfind, hty]
  · have hfilter2 : List.filter (fun t => !decide (t.id = newId)) db.transactions =
        db.transactions :=
      List.filter_eq_self.mpr (fun t ht => by simpa using hfresh t ht)
    simp [deleteTransaction, hfind, hty, hcancel, hfilter2]


/-- C3: with a due active definition scanned by
`processRecurringTransactions` (and no storage failure), one transaction
dated at the old `next_run_date` is created, the candidate next date is
the old `next_run_date` advanced by one frequency unit, the definition is
deactivated exactly when an `end_date` exists and the candidate is
strictly after it (otherwise it stays active with the candidate as
`next_run_date`), and in both branches `last_run_date` becomes the old
`next_run_date`. -/
theorem processRecurring_transition_spec (u : String) (now : Date)
    (freshId : String → String) (db : DB) (rt : RecurringTransaction)
    (hdue : dueList u now db = [rt]) :
    (processRecurringTransactions (some u) now freshId (fun _ => none) db).1 = Outcome.ok 1 ∧
    (processRecurringTransactions (some u) now freshId (fun _ => none) db).2.transactions = db.transactions ++ [materializeTx (freshId rt.id) rt] ∧
    (materializeTx (freshId rt.id) rt).date = rt.next_run_date ∧
    (processRecurringTransactions (some u) now freshId (fun _ => none) db).2.recurring =
      db.recurring.map (fun r => if r.id == rt.id then advanceRT rt else r) ∧
    (advanceRT rt).last_run_date = some rt.next_run_date ∧
    ((advanceRT rt).is_active = false ↔
      ∃ ed, rt.end_date = some ed ∧
        isAfter (advanceRT rt).next_run_date ed = true) := by
  have hp : processRecurringTransactions (some u) now freshId (fun _ => none) db = processLoop freshId (fun _ => none) [rt] db 0 := by
    simp [processRecurringTransactions, hdue]
  refine ⟨?_, ?_, rfl, ?_, rfl, ?_⟩
  · rw [hp]; rfl
  · rw [hp]; rfl
  · rw [hp]; rfl
  · cases hed : rt.end_date with
    | none => simp [advanceRT, hed]
    | some ed => simp [advanceRT, hed]

/-- C4: the schedule-advance step maps DAILY to +1 day, WEEKLY to +1 week
(7 days), MONTHLY to +1 calendar month with end-of-month clamping, and
YEARLY to +1 calendar year with leap-day clamping; in particular a MONTHLY
advance of 2023-01-31 yields 2023-02-28 (not 2023-03-03) and a YEARLY
advance of 2024-02-29 yields 2025-02-28. -/
theorem advance_frequency_spec :
    (∀ rt : RecurringTransaction, rt.frequency = Frequency.DAILY →
      (advanceRT rt).next_run_date = addDays rt.next_run_date 1) ∧
    (∀ rt : RecurringTransaction, rt.frequency = Frequency.WEEKLY →
      (advanceRT rt).next_run_date = addDays rt.next_run_date 7) ∧
    (∀ rt : RecurringTransaction, rt.frequency = Frequency.MONTHLY →
      (advanceRT rt).next_run_date = addMonths rt.next_run_date) ∧
    (∀ rt : RecurringTransaction, rt.frequency = Frequency.YEARLY →
      (advanceRT rt).next_run_date = addYears rt.next_run_date) ∧
    (∀ d : Date, (addMonths d).day =
      min d.day (Date.daysInMonth (addMonths d).year (addMonths d).month)) ∧
    (∀ d : Date, (addYears d).day =
      min d.day (Date.daysInMonth (d.year + 1) d.month)) ∧
    (∀ rt : RecurringTransaction, rt.frequency = Frequency.MONTHLY →
      rt.next_run_date = ⟨2023, 1, 31⟩ →
      (advanceRT rt).next_run_date = ⟨2023, 2, 28⟩) ∧
    (∀ rt : RecurringTransaction, rt.frequency = Frequency.YEARLY →
      rt.next_run_date = ⟨2024, 2, 29⟩ →
      (advanceRT rt).next_run_date = ⟨2025, 2, 28⟩) := by
  refine ⟨?_, ?_, ?_, ?_, ?_, ?_, ?_, ?_⟩
  · intro rt h; simp [advanceRT, h]
  · intro rt h; simp [advanceRT, h, addWeeks]
  · intro rt h; simp [advanceRT, h]
  · intro rt h; simp [advanceRT, h]
  · intro d; simp [addMonths]
  · intro d; simp [addYears]
  · intro rt h hd; simp [advanceRT, h, hd]; decide
  · intro rt h hd; simp [advanceRT, h, hd]; decide


/-- C5 as stated is false at this input: two definitions are due, the
storage layer fails on the first, and the call throws the storage error
with the store unchanged — the second due definition is not processed and
no processed count is returned. -/
theorem processRecurring_batch_cex :
    processRecurringTransactions (some "u") ⟨2024, 1, 15⟩ (fun i => i)
      (fun i => if i = "r1" then some "db error" else none)
      ⟨[], [],
        [⟨"r1", "u", JsNum.num 5, TransactionType.EXPENSE, "c", none, Frequency.DAILY,
            ⟨2024, 1, 1⟩, none, ⟨2024, 1, 1⟩, none, none, true⟩,
         ⟨"r2", "u", JsNum.num 7, TransactionType.EXPENSE, "c", none, Frequency.DAILY,
            ⟨2024, 1, 2⟩, none, ⟨2024, 1, 2⟩, none, none, true⟩]⟩ =
      (Outcome.thrown "db error",
        ⟨[], [],
          [⟨"r1", "u", JsNum.num 5, TransactionType.EXPENSE, "c", none, Frequency.DAILY,
              ⟨2024, 1, 1⟩, none, ⟨2024, 1, 1⟩, none, none, true⟩,
           ⟨"r2", "u", JsNum.num 7, TransactionType.EXPENSE, "c", none, Frequency.DAILY,
              ⟨2024, 1, 2⟩, none, ⟨2024, 1, 2⟩, none, none, true⟩]⟩) := by
  decide

/-- C5 amended: each due definition runs in its own atomic unit, and when
no definition fails the returned count equals the number of due
definitions, all committed in order; but a storage failure on one
definition aborts the batch — the successfully processed prefix stays
committed, the remaining definitions are not processed, and the error
propagates instead of a count being returned. -/
theorem processRecurring_batch_spec (u : String) (now : Date)
    (freshId : String → String) (failing : String → Option String) (db : DB) :
    ((∀ rt ∈ dueList u now db, failing rt.id = none) →
      processRecurringTransactions (some u) now freshId failing db =
        (Outcome.ok (dueList u now db).length,
          (dueList u now db).foldl (fun d rt => processOne (freshId rt.id) rt d) db)) ∧
    (∀ pre rt post m, dueList u now db = pre ++ rt :: post →
      (∀ r ∈ pre, failing r.id = none) → failing rt.id = some m →
      processRecurringTransactions (some u) now freshId failing db =
        (Outcome.thrown m,
          pre.foldl (fun d r => processOne (freshId r.id) r d) db)) := by
  constructor
  · intro h
    simp only [processRecurringTransactions]
    rw [processLoop_ok freshId failing (dueList u now db) db 0 h]
    simp
  · intro pre rt post m hsplit hpre hrt
    simp only [processRecurringTransactions]
    rw [hsplit, processLoop_aborts freshId failing pre rt post m db 0 hpre hrt]

/-- C6 as stated is false at this input: a due INCOME definition of amount
50 referencing account "a" (balance 100) is materialized into a
transaction row, yet the account balance stays 100 instead of becoming
150 — no balance delta is applied by recurring materialization. -/
theorem processRecurring_balance_cex :
    processRecurringTransactions (some "u") ⟨2024, 1, 15⟩ (fun i => i) (fun _ => none)
      ⟨[⟨"a", "u", JsNum.num 100⟩], [],
        [⟨"r1", "u", JsNum.num 50, TransactionType.INCOME, "salary", none,
            Frequency.MONTHLY, ⟨2024, 1, 1⟩, none, ⟨2024, 1, 1⟩, none, some "a", true⟩]⟩ =
      (Outcome.ok 1,
        ⟨[⟨"a", "u", JsNum.num 100⟩],
          [⟨"r1", "u", some "a", JsNum.num 50, TransactionType.INCOME, "salary",
              ⟨2024, 1, 1⟩, none⟩],
          [⟨"r1", "u", JsNum.num 50, TransactionType.INCOME, "salary", none,
              Frequency.MONTHLY, ⟨2024, 1, 1⟩, none, ⟨2024, 2, 1⟩, some ⟨2024, 1, 1⟩,
              some "a", true⟩]⟩) ∧
    (JsNum.num 100 ≠ JsNum.num 150) := by
  constructor
  · decide
  · intro h
    have : (100 : ℚ) = 150 := by injection h
    norm_num at this

/-- C6 amended: `processRecurringTransactions` creates the materialized
transaction rows but never adjusts any account balance: every account row
is unchanged by recurring processing, so the balance-equals-signed-sum
invariant is not preserved by this path for definitions that reference an
account. -/
theorem processRecurring_accounts_frame (session : Option String) (now : Date)
    (freshId : String → String) (failing : String → Option String) (db : DB) :
    (processRecurringTransactions session now freshId failing db).2.accounts =
      db.accounts := by
  cases session with
  | none => rfl
  | some u => exact processLoop_accounts freshId failing (dueList u now db) db 0


/-- C9 as stated is false at this input: an authenticated
`deleteTransaction` on a missing transaction raises an exception instead
of returning a structured error value, and an unauthenticated
`addTransaction` (a mutation path) also fails hard. -/
theorem error_channel_cex :
    (deleteTransaction (some "u") false "missing" ⟨[], [], []⟩).1 =
      Outcome.thrown "Gagal menghapus transaksi." ∧
    (addTransaction none "t1"
        ⟨JsNum.num 1, TransactionType.INCOME, "c", ⟨2024, 1, 1⟩, none, none⟩
        ⟨[], [], []⟩).1 = Outcome.thrown "Unauthorized" := by
  exact ⟨rfl, rfl⟩

/-- C9 amended: authenticated `addTransaction`, `updateTransaction` and
`addRecurringTransaction` return either a success or a structured error
value (they never raise), and recurring mutations turn a missing session
into a structured invalid-session error; but `deleteTransaction` raises a
fixed exception on every business or storage failure instead of returning
a structured error, and the `requireAuth`-based mutations fail hard on a
missing session. -/
theorem error_channel_spec (u : String) (db : DB) :
    (∀ newId d, (∃ t, (addTransaction (some u) newId d db).1 = Outcome.ok t) ∨
      (∃ m, (addTransaction (some u) newId d db).1 = Outcome.errValue m)) ∧
    (∀ id upd, (∃ t, (updateTransaction (some u) id upd db).1 = Outcome.ok t) ∨
      (∃ m, (updateTransaction (some u) id upd db).1 = Outcome.errValue m)) ∧
    (∀ fails newId d,
      (∃ r, (addRecurringTransaction (some u) fails newId d db).1 = Outcome.ok r) ∨
      (∃ m, (addRecurringTransaction (some u) fails newId d db).1 = Outcome.errValue m)) ∧
    (∀ fails id, (deleteTransaction (some u) fails id db).1 = Outcome.ok () ∨
      (deleteTransaction (some u) fails id db).1 =
        Outcome.thrown "Gagal menghapus transaksi.") ∧
    (∀ newId d, (addTransaction none newId d db).1 = Outcome.thrown "Unauthorized") ∧
    (∀ fails newId d, (addRecurringTransaction none fails newId d db).1 =
      Outcome.errValue SESSION_INVALID) := by
  refine ⟨?_, ?_, ?_, ?_, fun newId d => rfl, fun fails newId d => rfl⟩
  · intro newId d
    simp only [addTransaction]
    cases hval : validateTransaction d with
    | some m => exact Or.inr ⟨m, rfl⟩
    | none =>
      cases haid : normalizeAccountId d.account_id with
      | none => exact Or.inl ⟨_, rfl⟩
      | some aid =>
        by_cases hty : d.type = TransactionType.TRANSFER
        · exact Or.inl ⟨⟨newId, u, some aid, d.amount, d.type, d.category, d.date,
            normalizeDescription d.description⟩, by simp [hty]⟩
        · cases hacc : findAccount db aid u with
          | none => exact Or.inr ⟨"Akun tidak ditemukan.", by simp [hty, hacc]⟩
          | some acc => exact Or.inl ⟨⟨newId, u, some aid, d.amount, d.type, d.category,
              d.date, normalizeDescription d.description⟩, by simp [hty, hacc]⟩
  · intro id upd
    simp only [updateTransaction]
    cases hval : validateTxUpdate upd with
    | some m => exact Or.inr ⟨m, rfl⟩
    | none =>
      cases hf : db.transactions.find? (fun t => t.id == id && t.user_id == u) with
      | none => exact Or.inr ⟨"Gagal memperbarui transaksi.", rfl⟩
      | some t => exact Or.inl ⟨applyUpdate t upd, rfl⟩
  · intro fails newId d
    cases fails with
    | true => exact Or.inr ⟨"Gagal membuat transaksi berulang.", rfl⟩
    | false => exact Or.inl ⟨mkRecurring newId u d, rfl⟩
  · intro fails id
    cases fails with
    | true => exact Or.inr rfl
    | false =>
      simp only [deleteTransaction]
      cases hf : db.transactions.find? (fun t => t.id == id) with
      | none => exact Or.inr rfl
      | some t =>
        by_cases hu : t.user_id = u
        · exact Or.inl (by simp [hu])
        · exact Or.inr (by simp [hu])

/-- C10: `addRecurringTransaction` applies no input validation: every
authenticated call with a working store persists the definition's fields
unchanged — any amount (NaN and infinities included), any category, any
end-date/start-date combination — with `next_run_date = start_date` and
`is_active = true`; a structured validation error is never returned, the
only error results being the invalid-session error and the storage
failure. -/
theorem addRecurring_no_validation_spec (session : Option String) (fails : Bool)
    (newId : String) (d : RecurringInput) (db : DB) :
    (∀ u, session = some u → fails = false →
      (addRecurringTransaction session fails newId d db).1 =
          Outcome.ok (mkRecurring newId u d) ∧
        (addRecurringTransaction session fails newId d db).2.recurring =
          db.recurring ++ [mkRecurring newId u d] ∧
        (mkRecurring newId u d).amount = d.amount ∧
        (mkRecurring newId u d).type = d.type ∧
        (mkRecurring newId u d).category = d.category ∧
        (mkRecurring newId u d).frequency = d.frequency ∧
        (mkRecurring newId u d).start_date = d.start_date ∧
        (mkRecurring newId u d).end_date = d.end_date ∧
        (mkRecurring newId u d).account_id = d.account_id ∧
        (mkRecurring newId u d).next_run_date = d.start_date ∧
        (mkRecurring newId u d).is_active = true) ∧
    (∀ m, (addRecurringTransaction session fails newId d db).1 = Outcome.errValue m →
      (session = none ∧ m = SESSION_INVALID) ∨
        (fails = true ∧ m = "Gagal membuat transaksi berulang.")) := by
  constructor
  · rintro u rfl rfl
    exact ⟨rfl, rfl, rfl, rfl, rfl, rfl, rfl, rfl, rfl, rfl, rfl⟩
  · intro m
    cases session with
    | none =>
      intro h
      refine Or.inl ⟨rfl, ?_⟩
      have h2 : Outcome.errValue (α := RecurringTransaction) SESSION_INVALID =
          Outcome.errValue m := h
      cases h2
      rfl
    | some u2 =>
      cases fails with
      | true =>
        intro h
        refine Or.inr ⟨rfl, ?_⟩
        have h2 : Outcome.errValue (α := RecurringTransaction)
            "Gagal membuat transaksi berulang." = Outcome.errValue m := h
        cases h2
        rfl
      | false =>
        intro h
        exact absurd h (by simp [addRecurringTransaction])


/-! ## Witnesses -/

/-- Witness for C1 at a concrete store: INCOME of 50 on account "a" with
balance 100 succeeds and the looked-up balance is the old balance plus the
amount. -/
theorem addTransaction_balance_spec_witness :
    (∃ t, (addTransaction (some "u") "t1"
        ⟨JsNum.num 50, TransactionType.INCOME, "food", ⟨2024, 1, 1⟩, none, some "a"⟩
        ⟨[⟨"a", "u", JsNum.num 100⟩], [], []⟩).1 = Outcome.ok t) ∧
    findAccount (addTransaction (some "u") "t1"
        ⟨JsNum.num 50, TransactionType.INCOME, "food", ⟨2024, 1, 1⟩, none, some "a"⟩
        ⟨[⟨"a", "u", JsNum.num 100⟩], [], []⟩).2 "a" "u" =
      some ⟨"a", "u", (JsNum.num 100).add (JsNum.num 50)⟩ := by
  have h := (addTransaction_balance_spec "u" "t1"
      ⟨JsNum.num 50, TransactionType.INCOME, "food", ⟨2024, 1, 1⟩, none, some "a"⟩
      ⟨[⟨"a", "u", JsNum.num 100⟩], [], []⟩ "a" ⟨"a", "u", JsNum.num 100⟩).1
      (by decide) (by decide) (by decide) (by decide)
  exact ⟨h.1, h.2⟩

/-- Witness for C2 at a concrete store: adding an EXPENSE of 50 on account
"a" and deleting the created transaction restores the store exactly. -/
theorem add_delete_roundtrip_witness :
    (deleteTransaction (some "u") false "t1"
        (addTransaction (some "u") "t1"
          ⟨JsNum.num 50, TransactionType.EXPENSE, "food", ⟨2024, 1, 1⟩, none, some "a"⟩
          ⟨[⟨"a", "u", JsNum.num 100⟩], [], []⟩).2).1 = Outcome.ok () ∧
    (deleteTransaction (some "u") false "t1"
        (addTransaction (some "u") "t1"
          ⟨JsNum.num 50, TransactionType.EXPENSE, "food", ⟨2024, 1, 1⟩, none, some "a"⟩
          ⟨[⟨"a", "u", JsNum.num 100⟩], [], []⟩).2).2 =
      ⟨[⟨"a", "u", JsNum.num 100⟩], [], []⟩ :=
  add_delete_roundtrip "u" "t1"
    ⟨JsNum.num 50, TransactionType.EXPENSE, "food", ⟨2024, 1, 1⟩, none, some "a"⟩
    ⟨[⟨"a", "u", JsNum.num 100⟩], [], []⟩ "a" ⟨"a", "u", JsNum.num 100⟩
    (by decide) (by decide) (by decide) (by decide) (by decide)

/-- Witness for C3 at a concrete store: a due DAILY definition whose
candidate next date falls past its end date is processed once and
deactivated. -/
theorem processRecurring_transition_spec_witness :
    (processRecurringTransactions (some "u") ⟨2024, 3, 15⟩ (fun i => i) (fun _ => none)
        ⟨[], [], [⟨"r1", "u", JsNum.num 9, TransactionType.EXPENSE, "c", none,
            Frequency.DAILY, ⟨2024, 3, 1⟩, some ⟨2024, 3, 10⟩, ⟨2024, 3, 10⟩,
            none, none, true⟩]⟩).1 = Outcome.ok 1 ∧
    (advanceRT ⟨"r1", "u", JsNum.num 9, TransactionType.EXPENSE, "c", none,
        Frequency.DAILY, ⟨2024, 3, 1⟩, some ⟨2024, 3, 10⟩, ⟨2024, 3, 10⟩,
        none, none, true⟩).is_active = false := by
  have h := processRecurring_transition_spec "u" ⟨2024, 3, 15⟩ (fun i => i)
      ⟨[], [], [⟨"r1", "u", JsNum.num 9, TransactionType.EXPENSE, "c", none,
          Frequency.DAILY, ⟨2024, 3, 1⟩, some ⟨2024, 3, 10⟩, ⟨2024, 3, 10⟩,
          none, none, true⟩]⟩
      ⟨"r1", "u", JsNum.num 9, TransactionType.EXPENSE, "c", none,
        Frequency.DAILY, ⟨2024, 3, 1⟩, some ⟨2024, 3, 10⟩, ⟨2024, 3, 10⟩,
        none, none, true⟩ (by decide)
  exact ⟨h.1, h.2.2.2.2.2.mpr ⟨⟨2024, 3, 10⟩, rfl, by decide⟩⟩

/-- Witness for C4 at concrete dates: the month-end and leap-day clamps
and the daily advance evaluated on explicit definitions. -/
theorem advance_frequency_spec_witness :
    (advanceRT ⟨"r", "u", JsNum.num 1, TransactionType.EXPENSE, "c", none,
        Frequency.MONTHLY, ⟨2023, 1, 1⟩, none, ⟨2023, 1, 31⟩, none, none,
        true⟩).next_run_date = ⟨2023, 2, 28⟩ ∧
    (advanceRT ⟨"r", "u", JsNum.num 1, TransactionType.EXPENSE, "c", none,
        Frequency.YEARLY, ⟨2024, 1, 1⟩, none, ⟨2024, 2, 29⟩, none, none,
        true⟩).next_run_date = ⟨2025, 2, 28⟩ ∧
    (advanceRT ⟨"r", "u", JsNum.num 1, TransactionType.EXPENSE, "c", none,
        Frequency.DAILY, ⟨2024, 3, 1⟩, none, ⟨2024, 3, 10⟩, none, none,
        true⟩).next_run_date = addDays ⟨2024, 3, 10⟩ 1 :=
  ⟨advance_frequency_spec.2.2.2.2.2.2.1 _ rfl rfl,
   advance_frequency_spec.2.2.2.2.2.2.2 _ rfl rfl,
   advance_frequency_spec.1 _ rfl⟩

/-- Witness for C5 at concrete stores: with no failure the count equals
the number of due definitions; with a failing item the call throws and the
store is unchanged. -/
theorem processRecurring_batch_spec_witness :
    processRecurringTransactions (some "u") ⟨2024, 1, 15⟩ (fun i => i) (fun _ => none)
        ⟨[], [], [⟨"rA", "u", JsNum.num 3, TransactionType.EXPENSE, "c", none,
            Frequency.DAILY, ⟨2024, 1, 1⟩, none, ⟨2024, 1, 1⟩, none, none, true⟩]⟩ =
      (Outcome.ok (dueList "u" ⟨2024, 1, 15⟩
          ⟨[], [], [⟨"rA", "u", JsNum.num 3, TransactionType.EXPENSE, "c", none,
              Frequency.DAILY, ⟨2024, 1, 1⟩, none, ⟨2024, 1, 1⟩, none, none, true⟩]⟩).length,
        (dueList "u" ⟨2024, 1, 15⟩
          ⟨[], [], [⟨"rA", "u", JsNum.num 3, TransactionType.EXPENSE, "c", none,
              Frequency.DAILY, ⟨2024, 1, 1⟩, none, ⟨2024, 1, 1⟩, none, none, true⟩]⟩).foldl
          (fun d rt => processOne rt.id rt d)
          ⟨[], [], [⟨"rA", "u", JsNum.num 3, TransactionType.EXPENSE, "c", none,
              Frequency.DAILY, ⟨2024, 1, 1⟩, none, ⟨2024, 1, 1⟩, none, none, true⟩]⟩) ∧
    processRecurringTransactions (some "u") ⟨2024, 1, 15⟩ (fun i => i)
        (fun i => if i = "rB" then some "boom" else none)
        ⟨[], [], [⟨"rB", "u", JsNum.num 3, TransactionType.EXPENSE, "c", none,
            Frequency.DAILY, ⟨2024, 1, 1⟩, none, ⟨2024, 1, 1⟩, none, none, true⟩]⟩ =
      (Outcome.thrown "boom",
        ⟨[], [], [⟨"rB", "u", JsNum.num 3, TransactionType.EXPENSE, "c", none,
            Frequency.DAILY, ⟨2024, 1, 1⟩, none, ⟨2024, 1, 1⟩, none, none, true⟩]⟩) :=
  ⟨(processRecurring_batch_spec "u" ⟨2024, 1, 15⟩ (fun i => i) (fun _ => none)
      ⟨[], [], [⟨"rA", "u", JsNum.num 3, TransactionType.EXPENSE, "c", none,
          Frequency.DAILY, ⟨2024, 1, 1⟩, none, ⟨2024, 1, 1⟩, none, none, true⟩]⟩).1
      (by decide),
   (processRecurring_batch_spec "u" ⟨2024, 1, 15⟩ (fun i => i)
      (fun i => if i = "rB" then some "boom" else none)
      ⟨[], [], [⟨"rB", "u", JsNum.num 3, TransactionType.EXPENSE, "c", none,
          Frequency.DAILY, ⟨2024, 1, 1⟩, none, ⟨2024, 1, 1⟩, none, none, true⟩]⟩).2
      [] ⟨"rB", "u", JsNum.num 3, TransactionType.EXPENSE, "c", none,
          Frequency.DAILY, ⟨2024, 1, 1⟩, none, ⟨2024, 1, 1⟩, none, none, true⟩ [] "boom"
      (by decide) (by decide) (by decide)⟩

/-- Witness for C7 at a concrete store: an EXPENSE naming a missing
account returns the NotFound error and the empty store unchanged. -/
theorem addTransaction_rollback_spec_witness :
    addTransaction (some "u") "t1"
        ⟨JsNum.num 5, TransactionType.EXPENSE, "c", ⟨2024, 1, 1⟩, none, some "zz"⟩
        ⟨[], [], []⟩ =
      (Outcome.errValue "Akun tidak ditemukan.", ⟨[], [], []⟩) :=
  (addTransaction_rollback_spec "u" "t1"
      ⟨JsNum.num 5, TransactionType.EXPENSE, "c", ⟨2024, 1, 1⟩, none, some "zz"⟩
      ⟨[], [], []⟩ "zz").2 (by decide) (by decide) (by decide) (by decide)

/-- Witness for C10 at a concrete call: a NaN amount, empty category, and
an end date before the start date are persisted unchanged with no
validation error. -/
theorem addRecurring_no_validation_spec_witness :
    (addRecurringTransaction (some "u") false "r9"
        ⟨JsNum.nan, TransactionType.EXPENSE, "", none, Frequency.DAILY,
          ⟨2024, 5, 1⟩, some ⟨2024, 1, 1⟩, none⟩ ⟨[], [], []⟩).1 =
      Outcome.ok (mkRecurring "r9" "u"
        ⟨JsNum.nan, TransactionType.EXPENSE, "", none, Frequency.DAILY,
          ⟨2024, 5, 1⟩, some ⟨2024, 1, 1⟩, none⟩) ∧
    (mkRecurring "r9" "u"
        ⟨JsNum.nan, TransactionType.EXPENSE, "", none, Frequency.DAILY,
          ⟨2024, 5, 1⟩, some ⟨2024, 1, 1⟩, none⟩).amount = JsNum.nan := by
  have h := (addRecurring_no_validation_spec (some "u") false "r9"
      ⟨JsNum.nan, TransactionType.EXPENSE, "", none, Frequency.DAILY,
        ⟨2024, 5, 1⟩, some ⟨2024, 1, 1⟩, none⟩ ⟨[], [], []⟩).1 "u" rfl rfl
  exact ⟨h.1, h.2.2.1⟩
